import Mathlib

/-!
Verification of the astronaut-survival prediction service (`src/main.py`).

The development shallowly embeds the core of the program: the raw observation
model, the rule-based risk scorer (`calculate_risk_level`), the feedback
generator (`generate_feedback`), the feature encoder (scikit-learn
`DictVectorizer` restricted to numeric values), the feature normalizer
(`StandardScaler`), and the train / predict / model-info operations over the
module-level mutable state (`model`, `vectorizer`, `scaler`,
`feature_names`, `training_stats`, plus the on-disk snapshot).

Numbers are modelled as exact rationals (`ℚ`).  Library calls are embedded
by their documented semantics, noted at each definition.
-/

namespace NasaAI

/-- An observation: a JSON object mapping field names to numeric values,
modelled as an association list (first binding wins, as in a dict). -/
abbrev Obs := List (String × ℚ)

/-- Dictionary lookup `data.get(f)` / `data[f]`. -/
def getField (data : Obs) (f : String) : Option ℚ :=
  (data.find? (fun p => p.1 = f)).map (fun p => p.2)

/-- Membership test `f in data`. -/
def hasField (data : Obs) (f : String) : Bool :=
  (data.find? (fun p => p.1 = f)).isSome

/-- Evaluation rule: lookup in the empty observation. -/
lemma getField_nil (f : String) : getField [] f = none := rfl

/-- Evaluation rule: lookup in a non-empty observation. -/
lemma getField_cons (k : String) (v : ℚ) (rest : Obs) (f : String) :
    getField ((k, v) :: rest) f = if k = f then some v else getField rest f := by
  unfold getField
  by_cases h : k = f <;> simp [List.find?_cons, h]

/-- Evaluation rule: membership in the empty observation. -/
lemma hasField_nil (f : String) : hasField [] f = false := rfl

/-- Evaluation rule: membership in a non-empty observation. -/
lemma hasField_cons (k : String) (v : ℚ) (rest : Obs) (f : String) :
    hasField ((k, v) :: rest) f = if k = f then true else hasField rest f := by
  unfold hasField
  by_cases h : k = f <;> simp [List.find?_cons, h]

/-! ## Risk scorer (`calculate_risk_level`, src/main.py lines 133-163) -/

/-- The accumulated `risk_score` of `calculate_risk_level`
(src/main.py lines 135-154), branch for branch. -/
def riskScore (data : Obs) : ℕ :=
  let s1 : ℕ :=
    match getField data "oxygen_level" with
    | some o2 =>
        if o2 < 18 ∨ o2 > 25 then 3
        else if o2 < 19.5 ∨ o2 > 23.5 then 1
        else 0
    | none => 0
  let s2 :=
    match getField data "co2_level" with
    | some c => if c > 1 then s1 + 3 else s1
    | none => s1
  let s3 :=
    match getField data "radiation" with
    | some r => if r > 0.5 then s2 + 3 else s2
    | none => s2
  let s4 :=
    match getField data "food_supply_days" with
    | some f => if f < 7 then s3 + 2 else s3
    | none => s3
  match getField data "water_supply_days" with
  | some w => if w < 3 then s4 + 2 else s4
  | none => s4

/-- Function `calculate_risk_level` (src/main.py lines 133-163): the score is
accumulated, then the status/threshold cascade of lines 156-163 picks the
tier.  The `confidence` parameter is taken but never read, as in the source. -/
def calculate_risk_level (data : Obs) (status : String) (confidence : ℚ) : String :=
  let _ := confidence
  if status = "dead" then "CRITICAL"
  else if riskScore data ≥ 5 then "HIGH"
  else if riskScore data ≥ 2 then "MEDIUM"
  else "LOW"

/-- Spec-side risk score, written from the wording of the spec: a sum of
independent per-field rules, a rule firing only when its field is present
(oxygen has two disjoint rules: outside [18,25] adds 3, in
[18,19.5) ∪ (23.5,25] adds 1). -/
def riskScoreSpec (data : Obs) : ℕ :=
  (match getField data "oxygen_level" with
   | some o2 => if o2 < 18 ∨ o2 > 25 then 3 else 0
   | none => 0)
  + (match getField data "oxygen_level" with
     | some o2 => if (18 ≤ o2 ∧ o2 < 19.5) ∨ (23.5 < o2 ∧ o2 ≤ 25) then 1 else 0
     | none => 0)
  + (match getField data "co2_level" with
     | some c => if c > 1 then 3 else 0
     | none => 0)
  + (match getField data "radiation" with
     | some r => if r > 0.5 then 3 else 0
     | none => 0)
  + (match getField data "food_supply_days" with
     | some f => if f < 7 then 2 else 0
     | none => 0)
  + (match getField data "water_supply_days" with
     | some w => if w < 3 then 2 else 0
     | none => 0)

/-- Spec-side risk tier, written from the wording of the spec: predicted label
"dead" is unconditionally CRITICAL; otherwise score ≥ 5 → HIGH,
score ∈ [2,5) → MEDIUM, score < 2 → LOW. -/
def riskLevelSpec (data : Obs) (status : String) : String :=
  if status = "dead" then "CRITICAL"
  else if 5 ≤ riskScoreSpec data then "HIGH"
  else if 2 ≤ riskScoreSpec data ∧ riskScoreSpec data < 5 then "MEDIUM"
  else "LOW"

/-- The oxygen contribution of the if/elif cascade of the code equals the sum of
the two disjoint oxygen rules of the spec. -/
lemma oxygenContrib_eq (o2 : ℚ) :
    (if o2 < 18 ∨ o2 > 25 then (3 : ℕ)
     else if o2 < 19.5 ∨ o2 > 23.5 then 1 else 0)
    = (if o2 < 18 ∨ o2 > 25 then (3 : ℕ) else 0)
      + (if (18 ≤ o2 ∧ o2 < 19.5) ∨ (23.5 < o2 ∧ o2 ≤ 25) then 1 else 0) := by
  have hiff : ((18 ≤ o2 ∧ o2 < 19.5) ∨ (23.5 < o2 ∧ o2 ≤ 25))
      ↔ (¬(o2 < 18 ∨ o2 > 25) ∧ (o2 < 19.5 ∨ o2 > 23.5)) := by
    constructor
    · rintro (⟨h1, h2⟩ | ⟨h1, h2⟩)
      · refine ⟨?_, Or.inl h2⟩
        push_neg
        constructor <;> linarith
      · refine ⟨?_, Or.inr h1⟩
        push_neg
        constructor <;> linarith
    · rintro ⟨hn, hc⟩
      push_neg at hn
      rcases hc with h | h
      · exact Or.inl ⟨hn.1, h⟩
      · exact Or.inr ⟨h, hn.2⟩
  rw [if_congr hiff (rfl : (1 : ℕ) = 1) (rfl : (0 : ℕ) = 0)]
  by_cases hP : o2 < 18 ∨ o2 > 25 <;> by_cases hQ : o2 < 19.5 ∨ o2 > 23.5 <;>
    simp [hP, hQ]

set_option maxHeartbeats 2000000 in
/-- The sequentially accumulated score of the code equals the sum of
independent rules of the spec. -/
lemma riskScore_eq_spec (data : Obs) : riskScore data = riskScoreSpec data := by
  unfold riskScore riskScoreSpec
  cases hox : getField data "oxygen_level" <;>
  cases hco : getField data "co2_level" <;>
  cases hra : getField data "radiation" <;>
  cases hfo : getField data "food_supply_days" <;>
  cases hwa : getField data "water_supply_days" <;>
  simp only [hox, hco, hra, hfo, hwa] <;>
  (try simp only [oxygenContrib_eq]) <;>
  split_ifs <;> rfl

/-! ## Feedback generator (`generate_feedback`, src/main.py lines 47-131) -/

/-- One feedback message.  Each constructor stands for one of the literal
message strings appended by `generate_feedback`, carrying the numeric value
interpolated into it; the human-readable text itself is not modelled.
`overall` carries the status word of the overall-status line ("STABLE",
"MARGINAL" or "CRITICAL") and the interpolated confidence; `placeholder`
is the literal list `["No specific feedback available"]` of line 131. -/
inductive Msg where
  | oxygenCritical (v : ℚ)
  | oxygenLow (v : ℚ)
  | oxygenHigh (v : ℚ)
  | oxygenNormal (v : ℚ)
  | co2Critical (v : ℚ)
  | co2Warning (v : ℚ)
  | co2Normal (v : ℚ)
  | tempCold (v : ℚ)
  | tempHot (v : ℚ)
  | tempComfort (v : ℚ)
  | humidityDry (v : ℚ)
  | humidityHumid (v : ℚ)
  | humidityNormal (v : ℚ)
  | radCritical (v : ℚ)
  | radWarning (v : ℚ)
  | radSafe (v : ℚ)
  | foodCritical (v : ℚ)
  | foodWarning (v : ℚ)
  | foodAdequate (v : ℚ)
  | waterCritical (v : ℚ)
  | waterWarning (v : ℚ)
  | waterAdequate (v : ℚ)
  | overall (tier : String) (conf : ℚ)
  | placeholder
deriving DecidableEq

/-- The per-field messages of `generate_feedback` (src/main.py lines 49-121),
branch for branch, in source order: oxygen, CO2, temperature (field
`temperature` with fallback `heat`), humidity, radiation, food, water. -/
def fieldMessages (data : Obs) : List Msg :=
  (match getField data "oxygen_level" with
   | some o2 =>
       [if o2 < 18 then Msg.oxygenCritical o2
        else if o2 < 19.5 then Msg.oxygenLow o2
        else if o2 > 23.5 then Msg.oxygenHigh o2
        else Msg.oxygenNormal o2]
   | none => [])
  ++ (match getField data "co2_level" with
      | some c =>
          [if c > 1 then Msg.co2Critical c
           else if c > 0.5 then Msg.co2Warning c
           else Msg.co2Normal c]
      | none => [])
  ++ (if hasField data "temperature" || hasField data "heat" then
        let temp :=
          match getField data "temperature" with
          | some t => t
          | none => (getField data "heat").getD 0
        [if temp < 15 then Msg.tempCold temp
         else if temp > 30 then Msg.tempHot temp
         else Msg.tempComfort temp]
      else [])
  ++ (match getField data "humidity" with
      | some h =>
          [if h < 30 then Msg.humidityDry h
           else if h > 70 then Msg.humidityHumid h
           else Msg.humidityNormal h]
      | none => [])
  ++ (match getField data "radiation" with
      | some r =>
          [if r > 0.5 then Msg.radCritical r
           else if r > 0.1 then Msg.radWarning r
           else Msg.radSafe r]
      | none => [])
  ++ (match getField data "food_supply_days" with
      | some f =>
          [if f < 7 then Msg.foodCritical f
           else if f < 30 then Msg.foodWarning f
           else Msg.foodAdequate f]
      | none => [])
  ++ (match getField data "water_supply_days" with
      | some w =>
          [if w < 3 then Msg.waterCritical w
           else if w < 14 then Msg.waterWarning w
           else Msg.waterAdequate w]
      | none => [])

/-- The overall-status line of `generate_feedback` (src/main.py lines
123-129): `alive` with confidence above 0.8 is STABLE, `alive` otherwise is
MARGINAL, anything else is CRITICAL. -/
def overallMsg (status : String) (confidence : ℚ) : Msg :=
  if status = "alive" ∧ confidence > 0.8 then Msg.overall "STABLE" confidence
  else if status = "alive" then Msg.overall "MARGINAL" confidence
  else Msg.overall "CRITICAL" confidence

/-- Function `generate_feedback` (src/main.py lines 47-131): the per-field messages,
then the overall-status line, then the `feedback if feedback else [...]`
fallback of line 131. -/
def generate_feedback (data : Obs) (status : String) (confidence : ℚ) : List Msg :=
  let feedback := fieldMessages data ++ [overallMsg status confidence]
  if feedback.isEmpty then [Msg.placeholder] else feedback

/-- The emptiness fallback of line 131 is dead code: the overall-status line
is always appended, so the list handed to it is never empty. -/
lemma generate_feedback_eq (data : Obs) (status : String) (confidence : ℚ) :
    generate_feedback data status confidence
      = fieldMessages data ++ [overallMsg status confidence] := by
  unfold generate_feedback
  rw [if_neg]
  simp [List.isEmpty_iff]

/-- The last element of the feedback list is the overall-status line. -/
lemma generate_feedback_getLast (data : Obs) (status : String) (confidence : ℚ) :
    (generate_feedback data status confidence).getLast?
      = some (overallMsg status confidence) := by
  rw [generate_feedback_eq]
  simp

/-- If `hasField` is false the lookup yields nothing. -/
lemma getField_eq_none (data : Obs) (f : String) (h : hasField data f = false) :
    getField data f = none := by
  unfold hasField at h
  unfold getField
  cases hf : data.find? (fun p => p.1 = f) <;> simp [hf] at h ⊢

/-! ## Claim theorems: risk scorer -/

/-- C1: for every observation, predicted label and confidence, the risk tier
computed by `calculate_risk_level` agrees with the description in the spec: label
"dead" is unconditionally CRITICAL; otherwise the integer score accumulated
from the per-field rules (oxygen outside [18,25] adds 3, oxygen in
[18,19.5) ∪ (23.5,25] adds 1, co2 > 1.0 adds 3, radiation > 0.5 adds 3,
food < 7 adds 2, water < 3 adds 2, a rule firing only when its field is
present) maps to HIGH when ≥ 5, MEDIUM in [2,5), LOW below 2. -/
theorem c1_risk_level_matches_spec (data : Obs) (status : String) (confidence : ℚ) :
    calculate_risk_level data status confidence = riskLevelSpec data status := by
  unfold calculate_risk_level riskLevelSpec
  rw [riskScore_eq_spec]
  split_ifs <;> first | rfl | omega

/-- C1 witness: the equivalence evaluated at a concrete observation. -/
theorem c1_risk_level_matches_spec_witness :
    calculate_risk_level [("oxygen_level", 15), ("radiation", 0.7)] "alive" 0.9
      = riskLevelSpec [("oxygen_level", 15), ("radiation", 0.7)] "alive" :=
  c1_risk_level_matches_spec [("oxygen_level", 15), ("radiation", 0.7)] "alive" 0.9

/-- The observation of claim C2. -/
def obsC2 : Obs := [("oxygen_level", 15), ("co2_level", 0.3)]

/-- C2 counterexample: for {oxygen_level: 15, co2_level: 0.3} with predicted
label "alive" the code returns "MEDIUM", not "HIGH" as the claim states. -/
theorem c2_counterexample :
    calculate_risk_level obsC2 "alive" 0.9 = "MEDIUM"
      ∧ ("MEDIUM" : String) ≠ "HIGH" := by
  refine ⟨?_, by decide⟩
  simp [calculate_risk_level, riskScore, obsC2, getField_cons, getField_nil]
  norm_num

/-- C2 (amended): for {oxygen_level: 15, co2_level: 0.3} the accumulated
score is 3 (oxygen 15 < 18 adds 3, co2 0.3 adds nothing), which lies in
[2,5), so with predicted label "alive" the risk level is "MEDIUM"; with
predicted label "dead" it is "CRITICAL" regardless of score. -/
theorem c2_amended (confidence : ℚ) :
    riskScore obsC2 = 3
    ∧ calculate_risk_level obsC2 "alive" confidence = "MEDIUM"
    ∧ calculate_risk_level obsC2 "dead" confidence = "CRITICAL" := by
  refine ⟨?_, ?_, ?_⟩ <;>
    simp [calculate_risk_level, riskScore, obsC2, getField_cons, getField_nil] <;>
    norm_num

/-! ## Claim theorems: feedback generator -/

/-- C6: the overall-status line of the feedback is STABLE exactly when the
predicted label is "alive" and confidence > 0.8, MARGINAL exactly when the
label is "alive" and confidence ≤ 0.8, and CRITICAL whenever the label is
"dead", regardless of confidence. -/
theorem c6_overall_status (data : Obs) (status : String) (confidence : ℚ) :
    ((generate_feedback data status confidence).getLast?
        = some (Msg.overall "STABLE" confidence)
      ↔ (status = "alive" ∧ 0.8 < confidence))
    ∧ ((generate_feedback data status confidence).getLast?
        = some (Msg.overall "MARGINAL" confidence)
      ↔ (status = "alive" ∧ confidence ≤ 0.8))
    ∧ (status = "dead" →
        (generate_feedback data status confidence).getLast?
          = some (Msg.overall "CRITICAL" confidence)) := by
  simp only [generate_feedback_getLast, Option.some.injEq]
  unfold overallMsg
  by_cases hA : status = "alive"
  · by_cases hC : (0.8 : ℚ) < confidence
    · rw [if_pos ⟨hA, hC⟩]
      refine ⟨by simp [hA, hC], ?_, ?_⟩
      · constructor
        · intro h
          exact absurd (Msg.overall.injEq .. ▸ congrArg id h) (by simp)
        · rintro ⟨-, hle⟩
          exact absurd hC (not_lt.mpr hle)
      · intro hd
        rw [hA] at hd
        exact absurd hd (by decide)
    · rw [if_neg (fun h => hC h.2), if_pos hA]
      refine ⟨?_, by simp [hA, not_lt.mp hC], ?_⟩
      · constructor
        · intro h
          exact absurd (Msg.overall.injEq .. ▸ congrArg id h) (by simp)
        · rintro ⟨-, hlt⟩
          exact absurd hlt hC
      · intro hd
        rw [hA] at hd
        exact absurd hd (by decide)
  · rw [if_neg (fun h => hA h.1), if_neg hA]
    refine ⟨?_, ?_, fun _ => rfl⟩
    · constructor
      · intro h
        exact absurd (Msg.overall.injEq .. ▸ congrArg id h) (by simp)
      · rintro ⟨ha, -⟩
        exact absurd ha hA
    · constructor
      · intro h
        exact absurd (Msg.overall.injEq .. ▸ congrArg id h) (by simp)
      · rintro ⟨ha, -⟩
        exact absurd ha hA

/-- C6 witness: the CRITICAL case evaluated at label "dead", confidence 0.5. -/
theorem c6_overall_status_witness :
    (generate_feedback [] "dead" (1/2)).getLast?
      = some (Msg.overall "CRITICAL" (1/2)) :=
  (c6_overall_status [] "dead" (1/2)).2.2 rfl

/-- C8 counterexample: on the empty observation (no recognized fields) with
label "alive" and confidence 0.9, the feedback is the single overall-status
line, not the generic placeholder message the claim describes. -/
theorem c8_counterexample :
    generate_feedback [] "alive" 0.9 = [Msg.overall "STABLE" 0.9]
      ∧ Msg.overall "STABLE" 0.9 ≠ Msg.placeholder := by
  refine ⟨?_, by decide⟩
  simp [generate_feedback, fieldMessages, overallMsg, getField_nil, hasField_nil]
  norm_num

/-- C8 (amended): for every observation containing none of the recognized
fields, the feedback is the single overall-status line (the generic
placeholder branch of line 131 is unreachable); for every observation the
feedback list is non-empty. -/
theorem c8_amended (data : Obs) (status : String) (confidence : ℚ) :
    (hasField data "oxygen_level" = false →
     hasField data "co2_level" = false →
     hasField data "temperature" = false →
     hasField data "heat" = false →
     hasField data "humidity" = false →
     hasField data "radiation" = false →
     hasField data "food_supply_days" = false →
     hasField data "water_supply_days" = false →
      generate_feedback data status confidence = [overallMsg status confidence])
    ∧ generate_feedback data status confidence ≠ [] := by
  constructor
  · intro h1 h2 h3 h4 h5 h6 h7 h8
    rw [generate_feedback_eq]
    have hfm : fieldMessages data = [] := by
      unfold fieldMessages
      rw [getField_eq_none data _ h1, getField_eq_none data _ h2,
          getField_eq_none data _ h5, getField_eq_none data _ h6,
          getField_eq_none data _ h7, getField_eq_none data _ h8]
      simp [h3, h4]
    rw [hfm]
    rfl
  · rw [generate_feedback_eq]
    simp

/-- C8 witness: the amended statement evaluated on the empty observation. -/
theorem c8_amended_witness :
    generate_feedback [] "dead" 0.4 = [overallMsg "dead" 0.4]
      ∧ generate_feedback [] "dead" 0.4 ≠ [] := by
  have h := c8_amended [] "dead" 0.4
  exact ⟨h.1 rfl rfl rfl rfl rfl rfl rfl rfl, h.2⟩

/-! ## Feature encoder

scikit-learn `DictVectorizer` (src/main.py lines 241-242 and 313),
restricted to numeric feature values: the fitted vocabulary is an ordered
list of field names; `transform` emits one slot per vocabulary entry, the
value of the observation for that field or 0 when absent; observation fields
outside the vocabulary are ignored. -/

/-- Embedding of `vectorizer.transform([data])` for a fitted vocabulary (src/main.py
line 313). -/
def dictvecTransform (vocab : List String) (data : Obs) : List ℚ :=
  vocab.map (fun f => (getField data f).getD 0)

/-- Appending a binding for a field that some lookup never matches does not
change the lookup of a different field. -/
lemma getField_append_single (data : Obs) (f g : String) (v : ℚ) (h : g ≠ f) :
    getField (data ++ [(f, v)]) g = getField data g := by
  induction data with
  | nil =>
      simp only [List.nil_append, getField_cons, getField_nil]
      rw [if_neg (fun hfg => h hfg.symm)]
  | cons p rest ih =>
      obtain ⟨k, w⟩ := p
      by_cases hk : k = g <;> simp [getField_cons, hk, ih]

/-- C7: for every fitted vocabulary and observation, the encoded vector has
exactly one slot per vocabulary entry; a field outside the vocabulary is
silently dropped (adding it to the observation leaves the vector unchanged);
a vocabulary field absent from the observation encodes as 0. -/
theorem c7_encoder_vocabulary (vocab : List String) (data : Obs) :
    (dictvecTransform vocab data).length = vocab.length
    ∧ (∀ (f : String) (v : ℚ), f ∉ vocab →
        dictvecTransform vocab (data ++ [(f, v)]) = dictvecTransform vocab data)
    ∧ (∀ (i : ℕ) (f : String), vocab[i]? = some f → getField data f = none →
        (dictvecTransform vocab data)[i]? = some 0) := by
  refine ⟨by simp [dictvecTransform], ?_, ?_⟩
  · intro f v hf
    unfold dictvecTransform
    apply List.map_congr_left
    intro g hg
    rw [getField_append_single data f g v (fun hgf => hf (hgf ▸ hg))]
  · intro i f hi hnone
    unfold dictvecTransform
    rw [List.getElem?_map, hi]
    simp [hnone]

/-- C7 witness: vocabulary ["a","b"], observation {b: 2}; the unseen field
"c" is dropped and the missing vocabulary field "a" encodes as 0. -/
theorem c7_encoder_vocabulary_witness :
    (dictvecTransform ["a", "b"] [("b", 2)]).length = 2
    ∧ dictvecTransform ["a", "b"] ([("b", 2)] ++ [("c", 1)])
        = dictvecTransform ["a", "b"] [("b", 2)]
    ∧ (dictvecTransform ["a", "b"] [("b", 2)])[0]? = some 0 := by
  have h := c7_encoder_vocabulary ["a", "b"] [("b", 2)]
  exact ⟨h.1, h.2.1 "c" 1 (by decide),
    h.2.2 0 "a" rfl (by simp [getField_cons, getField_nil])⟩

/-! ## Feature normalizer

scikit-learn `StandardScaler` (src/main.py lines 245-246 and 314), one
column at a time: `fit` stores the mean of the column and its scale, where the
scale is the standard deviation with exact zeros replaced by 1
(`_handle_zeros_in_scale`, the guard that makes constant columns safe);
`transform` computes `(x - mean) / scale`. -/

/-- Computable stand-in for the square root on ℚ (the float `sqrt` of the
source).  The development relies only on properties shared with the real
and IEEE square root: `ratSqrt 0 = 0` and `ratSqrt q = 0 ↔ q ≤ 0`
(proved below), so the zero-scale test below coincides with that of the library. -/
def ratSqrt (q : ℚ) : ℚ :=
  if q ≤ 0 then 0 else (Nat.sqrt (q.num.toNat * q.den) : ℚ) / (q.den : ℚ)

/-- The stand-in square root vanishes exactly on non-positive inputs, as the
real square root does on the variances at hand (which are never negative). -/
lemma ratSqrt_eq_zero_iff (q : ℚ) : ratSqrt q = 0 ↔ q ≤ 0 := by
  unfold ratSqrt
  split_ifs with h
  · simp [h]
  · push_neg at h
    constructor
    · intro h0
      exfalso
      rw [div_eq_zero_iff] at h0
      have hden : (q.den : ℚ) ≠ 0 := by
        exact_mod_cast q.den_nz
      rcases h0 with h0 | h0
      · have hnum : 0 < q.num := Rat.num_pos.mpr h
        have hprod : q.num.toNat * q.den ≠ 0 := by
          have h1 : q.num.toNat ≠ 0 := by omega
          exact Nat.mul_ne_zero h1 q.den_nz
        have hsq : Nat.sqrt (q.num.toNat * q.den) ≠ 0 := by
          intro hz
          exact hprod (Nat.sqrt_eq_zero.mp hz)
        exact hsq (by exact_mod_cast h0)
      · exact hden h0
    · intro h0
      exact absurd h0 (not_le.mpr h)

/-- Column mean, `numpy` population mean as computed by `StandardScaler.fit`. -/
def colMean (c : List ℚ) : ℚ := c.sum / (c.length : ℚ)

/-- Column population variance as computed by `StandardScaler.fit`. -/
def colVar (c : List ℚ) : ℚ :=
  ((c.map (fun x => (x - colMean c) ^ 2)).sum) / (c.length : ℚ)

/-- The stored `scale_`: the standard deviation with exact zeros replaced by
1 (`_handle_zeros_in_scale`). -/
def colScale (c : List ℚ) : ℚ :=
  if ratSqrt (colVar c) = 0 then 1 else ratSqrt (colVar c)

/-- Embedding of `StandardScaler.transform` on one column entry (src/main.py line 314):
`(x - mean_) / scale_`. -/
def scalerTransform (c : List ℚ) (x : ℚ) : ℚ := (x - colMean c) / colScale c

/-- C3 counterexample: the constant training column [5,5,5] has standard
deviation 0, yet the input 7 (which differs from the training constant)
normalizes to 2, not to 0 as the claim states. -/
theorem c3_counterexample :
    ratSqrt (colVar [5, 5, 5]) = 0
    ∧ scalerTransform [5, 5, 5] 7 = 2
    ∧ (2 : ℚ) ≠ 0 := by
  have hmean : colMean [5, 5, 5] = 5 := by
    norm_num [colMean]
  have hvar : colVar [5, 5, 5] = 0 := by
    norm_num [colVar, hmean]
  have hsq : ratSqrt (colVar [5, 5, 5]) = 0 := by
    rw [hvar]
    simp [ratSqrt]
  refine ⟨hsq, ?_, by norm_num⟩
  unfold scalerTransform colScale
  rw [if_pos hsq, hmean]
  norm_num

/-- C3 (amended): the transform never divides by zero (the stored scale is
never 0); a column whose standard deviation is 0 normalizes to `x - mean`,
which is 0 exactly for inputs equal to the column mean (the training
constant) — inputs differing from it map to a non-zero value. -/
theorem c3_amended (c : List ℚ) (x : ℚ) :
    colScale c ≠ 0
    ∧ (ratSqrt (colVar c) = 0 → scalerTransform c x = x - colMean c)
    ∧ (ratSqrt (colVar c) = 0 → x = colMean c → scalerTransform c x = 0) := by
  refine ⟨?_, ?_, ?_⟩
  · unfold colScale
    split_ifs with h
    · exact one_ne_zero
    · exact h
  · intro h
    unfold scalerTransform colScale
    rw [if_pos h, div_one]
  · intro h hx
    unfold scalerTransform
    rw [hx, sub_self, zero_div]

/-- C3 witness: the amended statement evaluated on the constant column
[5,5,5] at the training constant 5 itself. -/
theorem c3_amended_witness :
    colScale [5, 5, 5] ≠ 0
    ∧ scalerTransform [5, 5, 5] 5 = 5 - colMean [5, 5, 5]
    ∧ scalerTransform [5, 5, 5] 5 = 0 := by
  have h := c3_amended [5, 5, 5] 5
  have hz : ratSqrt (colVar [5, 5, 5]) = 0 := by
    have hmean : colMean [5, 5, 5] = 5 := by norm_num [colMean]
    have hvar : colVar [5, 5, 5] = 0 := by norm_num [colVar, hmean]
    rw [hvar]
    simp [ratSqrt]
  exact ⟨h.1, h.2.1 hz, h.2.2 hz (by norm_num [colMean])⟩

/-! ## Service state and the predict operation

The module-level globals of src/main.py (lines 25-35): `model`,
`vectorizer`, `scaler`, `feature_names`, `training_stats`, plus the on-disk
joblib files, which the source always writes and reads together
(`MODEL_PATH`, `VECTORIZER_PATH`, `SCALER_PATH`) and which we therefore
model as one optional snapshot. -/

/-- A fitted classifier, kept opaque as in the spec: it exposes only the
class-probability pair `(p_alive, p_dead)` returned by
`model.predict_proba(x)[0]`, whose columns follow `classes_`, the sorted
label list ["alive", "dead"].  `model.predict` derives from it (argmax,
first class on ties), as in scikit-learn. -/
abbrev Clf := List ℚ → ℚ × ℚ

/-- The persisted snapshot: fitted vocabulary, per-feature (mean_, scale_)
pairs, and the classifier. -/
structure Snapshot where
  vocab : List String
  stats : List (ℚ × ℚ)
  clf : Clf

/-- In-memory `vectorizer` global: absent (`None`), constructed but
unfitted, or fitted with a vocabulary. -/
inductive VecState where
  | unfitted
  | fitted (vocab : List String)
deriving DecidableEq

/-- In-memory `scaler` global: absent (`None`), constructed but
unfitted, or fitted with (mean_, scale_) pairs. -/
inductive ScalState where
  | unfitted
  | fitted (stats : List (ℚ × ℚ))
deriving DecidableEq

/-- Embedding of the `training_stats` dict filled in by `train`
(src/main.py lines 258-264). -/
structure TrainingStats where
  samples : ℕ
  features : ℕ
  feature_names : List String
  alive_count : ℕ
  dead_count : ℕ
deriving DecidableEq

/-- The module-level mutable state: the five globals and the disk. -/
structure SrvState where
  model : Option Clf
  vectorizer : Option VecState
  scaler : Option ScalState
  feature_names : List String
  training_stats : Option TrainingStats
  disk : Option Snapshot

/-- Ways `predict` fails: the 400 "Model not trained yet" response
(src/main.py lines 298-302), or a 500 from the pipeline objects being
absent or unfitted when used. -/
inductive PredictErr where
  | notTrained
  | pipelineError
deriving DecidableEq

/-- The response body of `predict` (src/main.py lines 327-340): status,
confidence, risk level, feedback, and the metrics (provided fields, field
count, and the two reported prediction probabilities). -/
structure PredResult where
  astronomer_status : String
  confidence : ℚ
  risk_level : String
  feedback : List Msg
  provided_fields : List String
  field_count : ℕ
  proba_alive : ℚ
  proba_dead : ℚ
deriving DecidableEq

/-- The body of `predict` once the model objects are at hand
(src/main.py lines 312-340): encode, scale, classify, then assemble the
response.  `pred` is `model.predict(X)[0]` = `classes_[argmax proba]` with
`classes_ = ["alive", "dead"]` and ties resolved to the first class;
`confidence` is `proba.max()`; the reported probabilities mirror the
conditional swap of lines 335-338 verbatim. -/
def runPredict (vocab : List String) (stats : List (ℚ × ℚ)) (clf : Clf)
    (data : Obs) : PredResult :=
  let x := dictvecTransform vocab data
  let xs := (stats.zip x).map (fun p => (p.2 - p.1.1) / p.1.2)
  let pr := clf xs
  let pred := if pr.2 > pr.1 then "dead" else "alive"
  let conf := max pr.1 pr.2
  { astronomer_status := pred
    confidence := conf
    risk_level := calculate_risk_level data pred conf
    feedback := generate_feedback data pred conf
    provided_fields := data.map (fun p => p.1)
    field_count := data.length
    proba_alive := if pred = "alive" then pr.1 else pr.2
    proba_dead := if pred = "alive" then pr.2 else pr.1 }

/-- Function `predict` (src/main.py lines 280-343): when no model is resident it
either fails with the 400 "not trained" response (no file on disk) or
lazily loads the snapshot into the globals; with a model resident it uses
the in-memory vectorizer and scaler, failing with a 500 if they are absent
or unfitted (`NotFittedError` inside the try block).  Returns the updated
globals together with the outcome. -/
def predict (st : SrvState) (data : Obs) :
    SrvState × Except PredictErr PredResult :=
  match st.model with
  | none =>
      match st.disk with
      | none => (st, Except.error PredictErr.notTrained)
      | some snap =>
          let st1 : SrvState :=
            { st with
                model := some snap.clf
                vectorizer := some (VecState.fitted snap.vocab)
                scaler := some (ScalState.fitted snap.stats) }
          (st1, Except.ok (runPredict snap.vocab snap.stats snap.clf data))
  | some clf =>
      match st.vectorizer, st.scaler with
      | some (VecState.fitted vocab), some (ScalState.fitted stats) =>
          (st, Except.ok (runPredict vocab stats clf data))
      | _, _ => (st, Except.error PredictErr.pipelineError)

/-- The response of `model_info` (src/main.py lines 409-420): either the
"No model trained yet" message or the info body (training stats and feature
names; the constant model type and hyperparameters are omitted). -/
inductive InfoResult where
  | untrained
  | info (training_stats : Option TrainingStats) (feature_names : List String)
deriving DecidableEq

/-- Function `model_info` (src/main.py lines 409-420): answers from the in-memory
`model` global alone; the disk is never consulted. -/
def model_info (st : SrvState) : InfoResult :=
  match st.model with
  | none => InfoResult.untrained
  | some _ => InfoResult.info st.training_stats st.feature_names

/-! ## The train operation (src/main.py lines 186-278)

A training record is a JSON object whose values are numbers or strings
(the reserved field "status" carries the label as a string).  The source
builds a `pandas.DataFrame` from the record list: its columns are the union
of the record keys in first-seen order; a column missing from a record is NaN.
`DictVectorizer.fit_transform` sorts the feature names into the vocabulary
and passes numeric values (NaN included) through.  `StandardScaler.fit`
then rejects a matrix that contains NaN or has zero feature columns
(string-valued features, which `DictVectorizer` would one-hot expand, are
outside the modelled fragment and are treated as NaN here; no theorem
below touches them).  The globals are reassigned in source order, so a
failure inside `fit` leaves the earlier reassignments in place — which is
exactly what the atomicity claim is about. -/

/-- A JSON value in a training record: a number or a string. -/
inductive JVal where
  | num (q : ℚ)
  | str (s : String)
deriving DecidableEq

/-- A training record: a JSON object. -/
abbrev Rec := List (String × JVal)

/-- Lookup of a column in a record. -/
def getVal (r : Rec) (c : String) : Option JVal :=
  (r.find? (fun p => p.1 = c)).map (fun p => p.2)

/-- Columns of the DataFrame: union of record keys in first-seen order. -/
def dfColumns (records : List Rec) : List String :=
  records.foldl
    (fun acc r =>
      r.foldl (fun a p => if p.1 ∈ a then a else a ++ [p.1]) acc)
    []

/-- The validity test of lines 225-231: `df["status"].isin(["alive",
"dead"])` holds for a record exactly when it carries a string status
"alive" or "dead" (a missing status is NaN in the DataFrame and fails
`isin`, as does a non-string one). -/
def validStatus (r : Rec) : Bool :=
  match getVal r "status" with
  | some (JVal.str s) => s = "alive" || s = "dead"
  | _ => false

/-- The cell of a record for a feature column: its numeric value, or NaN
(`none`) when the column is missing from the record. -/
def featureCell (r : Rec) (c : String) : Option ℚ :=
  match getVal r c with
  | some (JVal.num q) => some q
  | _ => none

/-- Insert into a sorted list of strings (ascending). -/
def insSorted (s : String) : List String → List String
  | [] => [s]
  | t :: ts => if s ≤ t then s :: t :: ts else t :: insSorted s ts

/-- Sort feature names ascending, as `DictVectorizer.fit` does. -/
def sortStrings (l : List String) : List String := l.foldr insSorted []

/-- Ways `train` fails: the 400 responses for a missing status column
(lines 218-222) and for invalid status values (lines 225-231), and the 500
wrapping of any exception raised by the fitting pipeline (line 278). -/
inductive TrainErr where
  | missingStatus
  | invalidStatus
  | fitFailed
deriving DecidableEq

/-- Function `train` (src/main.py lines 186-278) over already-parsed records.
Returns the final globals together with the outcome.  The state updates
mirror the assignment order of the source: `feature_names` (line 238), then
`vectorizer` constructed and fitted (lines 241-242), then `scaler`
constructed (line 245) and — only if `fit_transform` succeeds — fitted
(line 246); then the model (lines 249-255), the stats (lines 258-264) and
the three joblib dumps (lines 267-269, modelled as one snapshot write).
When `fit_transform` raises, the function returns with the partially
reassigned globals in place, as a Python exception would leave them.
`rf` stands for the opaque `RandomForestClassifier.fit`. -/
def train (rf : List (List ℚ) → List String → Clf) (records : List Rec)
    (st : SrvState) : SrvState × Except TrainErr TrainingStats :=
  let columns := dfColumns records
  if "status" ∉ columns then
    (st, Except.error TrainErr.missingStatus)
  else if ¬ (records.all validStatus) then
    (st, Except.error TrainErr.invalidStatus)
  else
    let featureCols := columns.erase "status"
    let st1 := { st with feature_names := featureCols }
    let vocab := sortStrings featureCols
    let st2 := { st1 with vectorizer := some (VecState.fitted vocab) }
    let rows := records.map (fun r => vocab.map (featureCell r))
    let st3 := { st2 with scaler := some ScalState.unfitted }
    if rows.any (fun row => row.any Option.isNone) || vocab.isEmpty then
      (st3, Except.error TrainErr.fitFailed)
    else
      let matrix := rows.map (fun row => row.map (fun o => o.getD 0))
      let stats := (List.range vocab.length).map (fun j =>
        let col := matrix.map (fun row => row.getD j 0)
        (colMean col, colScale col))
      let st4 := { st3 with scaler := some (ScalState.fitted stats) }
      let xScaled := matrix.map (fun row =>
        (stats.zip row).map (fun p => (p.2 - p.1.1) / p.1.2))
      let y := records.map (fun r =>
        match getVal r "status" with
        | some (JVal.str s) => s
        | _ => "")
      let clf := rf xScaled y
      let st5 := { st4 with model := some clf }
      let tstats : TrainingStats :=
        { samples := records.length
          features := featureCols.length
          feature_names := featureCols
          alive_count := y.countP (fun s => s == "alive")
          dead_count := y.countP (fun s => s == "dead") }
      let st6 := { st5 with training_stats := some tstats }
      let st7 := { st6 with disk := some ⟨vocab, stats, clf⟩ }
      (st7, Except.ok tstats)

/-! ## Claim theorems: the service operations -/

/-- C9: with no model resident in memory and no snapshot on disk, `predict`
fails with the not-trained error and produces no prediction (the state is
also untouched). -/
theorem c9_predict_untrained (st : SrvState) (data : Obs)
    (hm : st.model = none) (hd : st.disk = none) :
    predict st data = (st, Except.error PredictErr.notTrained) := by
  simp [predict, hm, hd]

/-- The fresh-process state: all globals unset, nothing on disk. -/
def emptyState : SrvState := ⟨none, none, none, [], none, none⟩

/-- C9 witness: a fresh process with an empty disk. -/
theorem c9_predict_untrained_witness :
    predict emptyState [] = (emptyState, Except.error PredictErr.notTrained) :=
  c9_predict_untrained emptyState [] rfl rfl

/-- C10: with no model resident but a snapshot on disk, `model_info`
reports the untrained marker (it never consults the disk), while `predict`
on the very same state succeeds by lazily loading the snapshot into the
globals. -/
theorem c10_model_info_vs_predict (st : SrvState) (snap : Snapshot)
    (data : Obs) (hm : st.model = none) (hd : st.disk = some snap) :
    model_info st = InfoResult.untrained
    ∧ (predict st data).2
        = Except.ok (runPredict snap.vocab snap.stats snap.clf data)
    ∧ (predict st data).1.model = some snap.clf := by
  refine ⟨by simp [model_info, hm], ?_, ?_⟩ <;> simp [predict, hm, hd]

/-- A concrete classifier voting "alive" unanimously. -/
def clfConst : Clf := fun _ => (1, 0)

/-- A snapshot over the empty vocabulary with the unanimous classifier. -/
def snapConst : Snapshot := ⟨[], [], clfConst⟩

/-- A fresh process whose disk holds `snapConst`. -/
def stateWithDisk : SrvState := ⟨none, none, none, [], none, some snapConst⟩

/-- C10 witness: after a restart (globals unset) with a persisted snapshot,
`model_info` says untrained while `predict` answers from the loaded
snapshot. -/
theorem c10_model_info_vs_predict_witness :
    model_info stateWithDisk = InfoResult.untrained
    ∧ (predict stateWithDisk []).2
        = Except.ok (runPredict [] [] clfConst [])
    ∧ (predict stateWithDisk []).1.model = some clfConst :=
  c10_model_info_vs_predict stateWithDisk snapConst [] rfl rfl

/-- An ensemble in which a fifth of the members vote "alive":
`predict_proba` yields (0.2, 0.8) for every input. -/
def clfSkew : Clf := fun _ => (1/5, 4/5)

/-- C4 (code bug, src/main.py lines 335-338): with ensemble fractions
p_alive = 1/5 and p_dead = 4/5 the prediction is "dead", and the response
reports probability 4/5 under "alive" and 1/5 under "dead" — the two
classes swapped — so the probability reported for the predicted label is
1/5, not the confidence 4/5.  The claim (and the key
names written at lines 335-338) require "alive" to carry the fraction voting alive. -/
theorem c4_swapped_probabilities :
    (runPredict ["x"] [(0, 1)] clfSkew [("x", 1)]).astronomer_status = "dead"
    ∧ (runPredict ["x"] [(0, 1)] clfSkew [("x", 1)]).confidence = 4/5
    ∧ (clfSkew (dictvecTransform ["x"] [("x", 1)])).1 = 1/5
    ∧ (runPredict ["x"] [(0, 1)] clfSkew [("x", 1)]).proba_alive = 4/5
    ∧ (runPredict ["x"] [(0, 1)] clfSkew [("x", 1)]).proba_dead = 1/5
    ∧ (4/5 : ℚ) ≠ 1/5
    ∧ (runPredict ["x"] [(0, 1)] clfSkew [("x", 1)]).proba_dead
        ≠ (runPredict ["x"] [(0, 1)] clfSkew [("x", 1)]).confidence := by
  refine ⟨?_, ?_, rfl, ?_, ?_, by norm_num, ?_⟩ <;>
    simp [runPredict, clfSkew, dictvecTransform, getField_cons, max_def] <;>
    norm_num

/-- A previously committed, fully trained service state over the single
feature "x". -/
def stTrained : SrvState :=
  ⟨some clfConst, some (VecState.fitted ["x"]),
   some (ScalState.fitted [(0, 1)]), ["x"],
   some ⟨1, 1, ["x"], 1, 0⟩, some ⟨["x"], [(0, 1)], clfConst⟩⟩

/-- A training upload whose records carry only the status column, so the
feature matrix has zero columns and `StandardScaler.fit` raises. -/
def badRecords : List Rec :=
  [[("status", JVal.str "alive")], [("status", JVal.str "dead")]]

/-- The opaque forest fit, irrelevant to the failing run. -/
def rfConst : List (List ℚ) → List String → Clf := fun _ _ => clfConst

/-- C5 (code bug, src/main.py lines 233-246): the records of `badRecords`
pass label validation, yet mid-pipeline fitting fails — and by then the
code has already overwritten the committed in-memory state: `feature_names`
is cleared from ["x"] to [] and `scaler` is left as a fresh unfitted
object, while the old model stays, so the previously committed state is
partially mutated (only the on-disk snapshot survives intact).  The claim
says every training failure leaves the committed state unchanged. -/
theorem c5_train_failure_mutates_state :
    (train rfConst badRecords stTrained).2 = Except.error TrainErr.fitFailed
    ∧ (train rfConst badRecords stTrained).1.feature_names = []
    ∧ stTrained.feature_names = ["x"]
    ∧ (train rfConst badRecords stTrained).1.scaler = some ScalState.unfitted
    ∧ stTrained.scaler = some (ScalState.fitted [(0, 1)])
    ∧ (train rfConst badRecords stTrained).1.model = stTrained.model
    ∧ (train rfConst badRecords stTrained).1.disk = stTrained.disk := by
  exact ⟨rfl, rfl, rfl, rfl, rfl, rfl, rfl⟩

/-- The validation half of the atomicity story does hold: a missing status
column or an invalid status value fails the call before any global is
reassigned, leaving the state untouched. -/
theorem train_validation_error_preserves_state
    (rf : List (List ℚ) → List String → Clf) (records : List Rec)
    (st : SrvState)
    (h : "status" ∉ dfColumns records ∨ records.all validStatus = false) :
    (train rf records st).1 = st
    ∧ ((train rf records st).2 = Except.error TrainErr.missingStatus
       ∨ (train rf records st).2 = Except.error TrainErr.invalidStatus) := by
  unfold train
  by_cases h0 : "status" ∈ dfColumns records
  · have hv : records.all validStatus = false := by
      rcases h with h | h
      · exact absurd h0 h
      · exact h
    rw [if_neg (not_not_intro h0), if_pos (by simp [hv])]
    exact ⟨rfl, Or.inr rfl⟩
  · rw [if_pos h0]
    exact ⟨rfl, Or.inl rfl⟩

/-- Witness for the validation lemma: one record with status "unknown". -/
theorem train_validation_error_preserves_state_witness :
    (train rfConst [[("status", JVal.str "unknown")]] stTrained).1 = stTrained
    ∧ ((train rfConst [[("status", JVal.str "unknown")]] stTrained).2
          = Except.error TrainErr.missingStatus
       ∨ (train rfConst [[("status", JVal.str "unknown")]] stTrained).2
          = Except.error TrainErr.invalidStatus) :=
  train_validation_error_preserves_state rfConst
    [[("status", JVal.str "unknown")]] stTrained (Or.inr (by decide))

end NasaAI
